import Mathlib

/-!
# dfirst-payments: shallow embedding and verification

Shallow embedding of the Express payment servers in this repository
(`src/server.js`, `src/unnamed/part_000`).  Each file concatenates several
variants of the same server; the embedding below models the handlers the
claims cite:

* `POST /payment/initialize` — `server.js` lines 219-338 (card + M-Pesa
  branches, `amount * 100` for card) and `part_000` lines 69-128 / 636-695
  (card only, `Math.round(amount * 100)`);
* `GET /payment/verify` — `server.js` lines 341-403 and `part_000` lines
  698-760 (character-identical code): global verification cache keyed by
  `verification_<reference>`, 5-minute `setTimeout` deletion, Accept-header
  dependent JSON-vs-redirect response;
* `POST /webhook` — HMAC-SHA512 signature gate and event switch;
* `POST /mpesa/webhook` (`server.js` lines 441-482) and
  `POST /mpesa/callback` (`part_000` lines 587-633).

JavaScript dynamic values are modelled with typed structures whose optional
fields are `Option`s (`none` = the JS field is `undefined`); JS numbers are
modelled as `ℚ`; a thrown exception is modelled by the handler taking the
catch branch.  Wall-clock time is a `Nat` of milliseconds and the Node timer
queue is an explicit list of `(fireTime, key)` pairs consumed by
`fireDueTimers`.
-/

namespace DFirst

/-- A JS exception value, as observed by a `catch (error)` branch.
`typeError` is what `metadata.tier` on `undefined` raises;
`jsError` is `new Error(msg)`. -/
inductive JsError where
  | typeError (msg : String)
  | jsError (msg : String)
deriving DecidableEq, Repr

/-- `error.message` of a JS exception. -/
def JsError.message : JsError → String
  | .typeError m => m
  | .jsError m => m

/-- JS truthiness of a possibly-undefined string (`undefined` and `""` are
falsy). -/
def truthyStr : Option String → Bool
  | none => false
  | some s => !s.isEmpty

/-- JS truthiness of a possibly-undefined number (`undefined` and `0` are
falsy; we do not model `NaN`). -/
def truthyNum : Option ℚ → Bool
  | none => false
  | some q => q != 0

/-- `x === 'lit'` for a possibly-undefined string `x`. -/
def jsStrEq (x : Option String) (lit : String) : Bool :=
  match x with
  | none => false
  | some s => s == lit

/-- `x === n` for a possibly-undefined number `x`. -/
def jsNumEq (x : Option ℚ) (n : ℚ) : Bool :=
  match x with
  | none => false
  | some q => q == n

/-- `a.includes(b)` on strings, as used by
`req.headers.accept?.includes('application/json')`. -/
def strIncludes (hay needle : String) : Bool :=
  decide (needle.toList <:+: hay.toList)

/-- `req.headers.accept?.includes('application/json')`: `undefined` when the
header is absent, which is falsy. -/
def acceptsJson (accept : Option String) : Bool :=
  match accept with
  | none => false
  | some s => strIncludes s "application/json"

/-! ## Request metadata and upstream payloads -/

/-- The `metadata` object of an initialize request body, with the fields the
handlers read (`paymentMethod`, `phoneNumber`, `tier`, `subscriptionType`,
`userId`, `returnUrl`); each is `undefined` when absent. -/
structure InitMetadata where
  paymentMethod : Option String := none
  phoneNumber : Option String := none
  tier : Option String := none
  subscriptionType : Option String := none
  userId : Option String := none
  returnUrl : Option String := none
deriving DecidableEq, Repr, Inhabited

/-- Body of `POST /payment/initialize`: `const { email, amount, metadata } =
req.body`. -/
structure InitRequestBody where
  email : Option String := none
  amount : Option ℚ := none
  metadata : Option InitMetadata := none
deriving DecidableEq, Repr, Inhabited

/-- One entry of the `custom_fields` array attached to the upstream
initialize payload. -/
structure CustomField where
  display_name : String
  variable_name : String
  value : Option String
deriving DecidableEq, Repr

/-- The `mobile_money` block of the M-Pesa initialize payload. -/
structure MobileMoney where
  phone : Option String
  provider : String
deriving DecidableEq, Repr

/-- The payload the initialize handlers send to
`paystackAPI('POST', '/transaction/initialize', ·)`. -/
structure InitPayload where
  email : String
  amount : ℚ
  currency : String
  channels : List String
  callback_url : Option String := none
  return_url : Option String := none
  mobile_money : Option MobileMoney := none
  custom_fields : List CustomField := []
  spreadMetadata : Option InitMetadata := none
deriving DecidableEq, Repr

/-- The upstream response to an initialize call, as far as the handlers
inspect it (`stkResponse.status`, `stkResponse.message`). -/
structure UpInitResp where
  status : Bool
  message : Option String := none
deriving DecidableEq, Repr

/-! ## Verification data and the global cache -/

/-- The metadata object inside an upstream verify response, with the fields
the verify handler reads or writes (`botName`, `tier`, and the
`paymentReference` the handler assigns). -/
structure VerifyMeta where
  botName : Option String := none
  tier : Option String := none
  paymentReference : Option String := none
deriving DecidableEq, Repr, Inhabited

/-- `response.data` of an upstream `/transaction/verify` response. -/
structure PaystackVerifyData where
  status : Option String := none
  metadata : Option VerifyMeta := none
deriving DecidableEq, Repr, Inhabited

/-- An upstream `/transaction/verify` response (the handler only chains
through `response?.data`). -/
structure PaystackVerifyResponse where
  data : Option PaystackVerifyData := none
deriving DecidableEq, Repr, Inhabited

/-- A primitive JS value found in an M-Pesa callback metadata item. -/
inductive JsPrim where
  | num (q : ℚ)
  | str (s : String)
deriving DecidableEq, Repr

/-- One `{ Name, Value }` item of `stkCallback.CallbackMetadata.Item`. -/
structure CallbackItem where
  Name : String
  Value : JsPrim
deriving DecidableEq, Repr

/-- The success record `/mpesa/callback` stores under
`mpesa_verification_<id>` when `ResultCode === 0`. -/
structure MpesaCallbackSuccess where
  amount : JsPrim
  receipt : JsPrim
  phoneNumber : JsPrim
  checkoutRequestID : String
  metadata : Option InitMetadata
deriving DecidableEq, Repr

/-- The failure record `/mpesa/callback` stores when `ResultCode !== 0`. -/
structure MpesaCallbackFailure where
  error : Option String
  checkoutRequestID : String
  metadata : Option InitMetadata
deriving DecidableEq, Repr

/-- A value stored in the process-global object (`global[key]`), one
constructor per record shape the handlers write. -/
inductive CacheValue where
  /-- The raw upstream verify response cached by `GET /payment/verify`. -/
  | verifyResp (r : PaystackVerifyResponse)
  /-- `{ status: true, data }` written by `POST /mpesa/webhook`. -/
  | mpesaWebhookRec (status : Bool) (data : PaystackVerifyData)
  /-- Success record written by `POST /mpesa/callback`. -/
  | mpesaCallbackSucc (v : MpesaCallbackSuccess)
  /-- Failure record written by `POST /mpesa/callback`. -/
  | mpesaCallbackFail (v : MpesaCallbackFailure)
  /-- `{ metadata, amount, timestamp }` written by
  `POST /payment/mpesa/initiate` under `mpesa_request_<id>`. -/
  | mpesaRequestRec (metadata : Option InitMetadata) (amount : ℚ) (timestamp : Nat)
deriving DecidableEq, Repr

/-- `requestData?.metadata` on a cached value (a field access that yields
`undefined` on record shapes without the field). -/
def CacheValue.requestMetadata : Option CacheValue → Option InitMetadata
  | some (.mpesaRequestRec md _ _) => md
  | _ => none

/-- The process-global mutable state: the `global[...]` key/value entries the
handlers create, plus the pending `setTimeout` deletions as
`(fireTime in ms, key)` pairs. -/
structure GlobalState where
  cache : List (String × CacheValue) := []
  timers : List (Nat × String) := []
deriving DecidableEq, Repr, Inhabited

/-- `global[key]` read (property lookup). -/
def lookupCache : List (String × CacheValue) → String → Option CacheValue
  | [], _ => none
  | (k, v) :: rest, key => if k = key then some v else lookupCache rest key

/-- `global[key] = v` (overwrites an existing binding). -/
def insertCache (c : List (String × CacheValue)) (key : String) (v : CacheValue) :
    List (String × CacheValue) :=
  match c with
  | [] => [(key, v)]
  | (k, w) :: rest =>
    if k = key then (key, v) :: rest else (k, w) :: insertCache rest key v

/-- `delete global[key]`. -/
def eraseCache (c : List (String × CacheValue)) (key : String) :
    List (String × CacheValue) :=
  match c with
  | [] => []
  | (k, w) :: rest =>
    if k = key then eraseCache rest key else (k, w) :: eraseCache rest key

/-- Fire every pending `setTimeout` whose time has come: each due timer runs
`delete global[key]`; the rest stay pending. -/
def fireDueTimers (now : Nat) (st : GlobalState) : GlobalState :=
  { cache := st.timers.foldl
      (fun c p => if p.1 ≤ now then eraseCache c p.2 else c) st.cache,
    timers := st.timers.filter (fun p => now < p.1) }

/-- Five minutes in milliseconds (`5 * 60 * 1000`). -/
def fiveMinutesMs : Nat := 5 * 60 * 1000

/-! ## Initialize endpoint -/

/-- The environment configuration the initialize handlers read:
`process.env.NODE_ENV` and the listening port. -/
structure Env where
  isProduction : Bool
  port : Nat
deriving DecidableEq, Repr

/-- `serverUrl`: the onrender.com URL in production, else
`http://localhost:<port>`. -/
def Env.serverUrl (env : Env) : String :=
  if env.isProduction then "https://dfirst-payments.onrender.com"
  else "http://localhost:" ++ toString env.port

/-- Response of the initialize handlers, by shape:
`badRequest` is `res.status(400).json({status:false, message})`,
`serverError` is the catch branch `res.status(500).json({status:false,
message})`, `upstreamJson` is `res.json(response)`. -/
inductive InitResponse where
  | badRequest (message : String)
  | serverError (message : String)
  | upstreamJson (resp : UpInitResp)
deriving DecidableEq, Repr

/-- HTTP status code of an initialize response (`res.json` is 200). -/
def InitResponse.statusCode : InitResponse → Nat
  | .badRequest _ => 400
  | .serverError _ => 500
  | .upstreamJson _ => 200

/-- What an initialize handler did: the response sent and the payloads of the
upstream `/transaction/initialize` calls it made. -/
structure InitOutcome where
  response : InitResponse
  upstreamCalls : List InitPayload
deriving DecidableEq, Repr

/-- The Node message of the `TypeError` raised by `metadata.tier` when
`metadata` is `undefined`. -/
def tierTypeErrorMsg : String :=
  "Cannot read properties of undefined (reading 'tier')"

/-- Building the `custom_fields` array reads `metadata.tier`,
`metadata.subscriptionType` and `metadata.userId` with plain (non-optional)
accesses: a `TypeError` is thrown when `metadata` is `undefined`. -/
def buildCustomFields : Option InitMetadata → Except JsError (List CustomField)
  | none => .error (.typeError tierTypeErrorMsg)
  | some md => .ok
      [⟨"Bot Tier", "bot_tier", md.tier⟩,
       ⟨"Subscription Type", "subscription_type", md.subscriptionType⟩,
       ⟨"User ID", "user_id", md.userId⟩]

/-- The JS idiom `error.message || fallback`. -/
def messageOr (e : JsError) (fallback : String) : String :=
  if e.message.isEmpty then fallback else e.message

namespace SJ

/-- `POST /payment/initialize` of `server.js` (second variant, lines
219-338).  Validates truthiness of `email` and `amount`; routes to the
M-Pesa branch when `metadata?.paymentMethod === 'mpesa' &&
metadata?.phoneNumber`, sending `amount` unscaled with a `mobile_money`
block; otherwise builds the card payload with `amount * 100`.  Reading
`metadata.tier` on the card path throws when `metadata` is `undefined`, and
the catch branch answers 500 with `error.message`.  `upstream` is the
response `paystackAPI` would resolve with if called. -/
def initializeHandler (env : Env) (body : InitRequestBody) (upstream : UpInitResp) :
    InitOutcome :=
  if truthyStr body.email && truthyNum body.amount then
    let email := body.email.getD ""
    let amount := body.amount.getD 0
    if jsStrEq (body.metadata.bind (·.paymentMethod)) "mpesa"
        && truthyStr (body.metadata.bind (·.phoneNumber)) then
      -- the branch guard ensures metadata is defined here
      let md := body.metadata.getD default
      match buildCustomFields body.metadata with
      | .error e =>
        { response := .serverError (messageOr e "Failed to initialize payment"),
          upstreamCalls := [] }
      | .ok fields =>
        let mpesaData : InitPayload :=
          { email := email, amount := amount, currency := "KES",
            mobile_money := some ⟨md.phoneNumber, "mpesa"⟩,
            channels := ["mobile_money"],
            custom_fields := fields, spreadMetadata := body.metadata,
            callback_url := some (env.serverUrl ++ "/payment/verify"),
            return_url := md.returnUrl }
        if upstream.status then
          { response := .upstreamJson upstream, upstreamCalls := [mpesaData] }
        else
          -- inner catch rethrows with a prefixed message; outer catch sends 500
          { response := .serverError ("Failed to initialize M-Pesa payment: "
              ++ messageOr (.jsError ((upstream.message).getD
                   "Failed to initialize M-Pesa payment"))
                 "Failed to initialize payment"),
            upstreamCalls := [mpesaData] }
    else
      match buildCustomFields body.metadata with
      | .error e =>
        { response := .serverError (messageOr e "Failed to initialize payment"),
          upstreamCalls := [] }
      | .ok fields =>
        let paystackData : InitPayload :=
          { email := email, amount := amount * 100,
            callback_url := some (env.serverUrl ++ "/payment/verify"),
            custom_fields := fields, spreadMetadata := body.metadata,
            currency := "KES", channels := ["card"] }
        { response := .upstreamJson upstream, upstreamCalls := [paystackData] }
  else
    { response := .badRequest "Email and amount are required", upstreamCalls := [] }

end SJ

namespace P0

/-- `POST /payment/initialize` of `part_000` (lines 69-128, identical at
lines 636-695): card-only variant whose payload carries
`Math.round(amount * 100)`.  `metadata.tier` throws when `metadata` is
`undefined`; the catch branch answers 500 with `error.message`. -/
def initializeHandler (env : Env) (body : InitRequestBody) (upstream : UpInitResp) :
    InitOutcome :=
  if truthyStr body.email && truthyNum body.amount then
    let email := body.email.getD ""
    let amount := body.amount.getD 0
    match buildCustomFields body.metadata with
    | .error e =>
      { response := .serverError (messageOr e "Failed to initialize payment"),
        upstreamCalls := [] }
    | .ok fields =>
      let paystackData : InitPayload :=
        { email := email, amount := ((round (amount * 100) : ℤ) : ℚ),
          callback_url := some (env.serverUrl ++ "/payment/verify"),
          custom_fields := fields, spreadMetadata := body.metadata,
          currency := "KES", channels := ["card"] }
      { response := .upstreamJson upstream, upstreamCalls := [paystackData] }
  else
    { response := .badRequest "Email and amount are required", upstreamCalls := [] }

end P0

/-! ## Verify endpoint -/

/-- The components of the `dfirsttrader://payment/verify?...` redirect URL
the verify handler assembles (the URL scheme is fixed by the handler's
template literal; `reference = none` renders as the string
`"undefined"`). -/
structure RedirectTarget where
  reference : Option String
  status : String
  screen : String := "trading"
  error : Option String := none
  botName : Option String := none
  tier : Option String := none
deriving DecidableEq, Repr

/-- Response of `GET /payment/verify`, by shape:
`jsonCached` is the cache-hit `return res.json(global[verificationKey])`,
`jsonFresh` is the miss-path `res.json(response)`,
`json500` is the catch branch for JSON clients,
`redirectApp` is `res.redirect` to the `dfirsttrader://` scheme (302). -/
inductive VerifyResponse where
  | jsonCached (v : CacheValue)
  | jsonFresh (r : PaystackVerifyResponse)
  | json500 (message : String)
  | redirectApp (t : RedirectTarget)
deriving DecidableEq, Repr

/-- HTTP status code of a verify response (`res.redirect` defaults to
302). -/
def VerifyResponse.statusCode : VerifyResponse → Nat
  | .jsonCached _ => 200
  | .jsonFresh _ => 200
  | .json500 _ => 500
  | .redirectApp _ => 302

/-- Whether the verify response is a redirect. -/
def VerifyResponse.isRedirect : VerifyResponse → Bool
  | .redirectApp _ => true
  | _ => false

/-- The `status` query component of a redirect response, `none` for
non-redirect responses. -/
def VerifyResponse.redirectStatus : VerifyResponse → Option String
  | .redirectApp t => some t.status
  | _ => none

/-- Whether the verify response is a JSON body (`res.json`). -/
def VerifyResponse.isJson : VerifyResponse → Bool
  | .jsonCached _ => true
  | .jsonFresh _ => true
  | .json500 _ => true
  | .redirectApp _ => false

/-- What a verify invocation did: the response, the resulting global state,
and how many upstream `/transaction/verify/<reference>` calls it made. -/
structure VerifyOutcome where
  response : VerifyResponse
  state : GlobalState
  upstreamCalls : Nat
deriving DecidableEq, Repr

/-- `metadata.paymentReference = reference` performed on the metadata object
inside the upstream response (the cached response aliases the mutated
object). -/
def setPaymentReference (r : PaystackVerifyResponse) (reference : String) :
    PaystackVerifyResponse :=
  match r.data with
  | none => r
  | some d =>
    match d.metadata with
    | none => r
    | some m =>
      { data := some { d with metadata := some { m with paymentReference := some reference } } }

/-- The response object as cached and replied on a verify miss: the upstream
response, with `metadata.paymentReference = reference` assigned when the
payment succeeded and metadata is defined. -/
def storedResponse (upstream : PaystackVerifyResponse) (reference : String) :
    PaystackVerifyResponse :=
  if jsStrEq ((upstream.data).bind (·.status)) "success"
      && ((upstream.data).bind (·.metadata)).isSome
  then setPaymentReference upstream reference else upstream

/-- `GET /payment/verify` of `server.js` lines 341-403 and `part_000` lines
698-760 (the two cited handlers are character-identical).  Missing
`reference` throws `new Error('No reference provided')`, handled by the
catch branch: 500 with the message for JSON clients, else a redirect.  On a
cache hit the cached value is returned as JSON unconditionally.  On a miss
the upstream response is fetched (`upstream`), `success` is derived from
`response?.data?.status === 'success'`, `metadata.paymentReference` is
assigned when successful, the response is cached under
`verification_<reference>`, the reply is JSON or a `dfirsttrader://`
redirect by Accept header, and a `setTimeout` deletion is scheduled
`fiveMinutesMs` after `now`. -/
def verifyHandler (st : GlobalState) (now : Nat) (reference : Option String)
    (accept : Option String) (upstream : PaystackVerifyResponse) : VerifyOutcome :=
  match reference with
  | none =>
    if acceptsJson accept then
      { response := .json500 "No reference provided", state := st,
        upstreamCalls := 0 }
    else
      { response := .redirectApp
          { reference := none, status := "failed",
            error := some "No reference provided" },
        state := st, upstreamCalls := 0 }
  | some reference =>
    let verificationKey := "verification_" ++ reference
    match lookupCache st.cache verificationKey with
    | some v =>
      { response := .jsonCached v, state := st, upstreamCalls := 0 }
    | none =>
      let success := jsStrEq ((upstream.data).bind (·.status)) "success"
      let response := storedResponse upstream reference
      let md := (response.data).bind (·.metadata)
      let st1 : GlobalState :=
        { cache := insertCache st.cache verificationKey (.verifyResp response),
          timers := st.timers ++ [(now + fiveMinutesMs, verificationKey)] }
      if acceptsJson accept then
        { response := .jsonFresh response, state := st1, upstreamCalls := 1 }
      else
        { response := .redirectApp
            { reference := some reference,
              status := if success then "success" else "failed",
              botName := some ((md.bind (·.botName)).getD ""),
              tier := some ((md.bind (·.tier)).getD "") },
          state := st1, upstreamCalls := 1 }

/-! ## Paystack webhook endpoint -/

/-- Webhook request body, as far as the handler inspects it: the switch reads
only `event.event` (the `data` payload is only logged). -/
structure WebhookBody where
  event : Option String := none
deriving DecidableEq, Repr, Inhabited

/-- Which branch of the webhook event switch ran; every branch only logs. -/
inductive WebhookDispatch where
  | logChargeSuccess
  | logTransferSuccess
  | logUnhandled
deriving DecidableEq, Repr

/-- What the webhook handler did: `sendStatus` code, the switch branch taken
(`none` when the signature gate rejected the request), and the resulting
global state. -/
structure WebhookOutcome where
  statusCode : Nat
  dispatch : Option WebhookDispatch
  state : GlobalState
deriving DecidableEq, Repr

/-- `POST /webhook` (`server.js` lines 115-146 and 406-438, `part_000` lines
158-190 and 763-795 — all five copies are the same code).  Computes
`hmacSha512 secret (stringify body)` (the `crypto.createHmac('sha512',
secret).update(JSON.stringify(req.body)).digest('hex')` pipeline, passed in
as functions) and compares it with the `x-paystack-signature` header
(`undefined` compares unequal).  Equal digests run the event switch and
answer 200; otherwise the handler answers 400 without dispatching.  The
handler never touches the global cache. -/
def webhookHandler (hmacSha512 : String → String → String)
    (stringify : WebhookBody → String) (secret : String)
    (body : WebhookBody) (sigHeader : Option String) (st : GlobalState) :
    WebhookOutcome :=
  let hash := hmacSha512 secret (stringify body)
  if jsStrEq sigHeader hash then
    -- `switch (event.event)` comparing with strict equality
    let dispatch :=
      if jsStrEq body.event "charge.success" then WebhookDispatch.logChargeSuccess
      else if jsStrEq body.event "transfer.success" then WebhookDispatch.logTransferSuccess
      else WebhookDispatch.logUnhandled
    { statusCode := 200, dispatch := some dispatch, state := st }
  else
    { statusCode := 400, dispatch := none, state := st }

/-! ## M-Pesa webhook (`server.js`) -/

/-- `event.data` of an `/mpesa/webhook` request body. -/
structure MpesaWebhookData where
  channel : Option String := none
  reference : Option String := none
deriving DecidableEq, Repr, Inhabited

/-- Body of `POST /mpesa/webhook`. -/
structure MpesaWebhookBody where
  event : Option String := none
  data : Option MpesaWebhookData := none
deriving DecidableEq, Repr, Inhabited

/-- What `/mpesa/webhook` did: `sendStatus` code, resulting state, and the
references it verified upstream. -/
structure MpesaWebhookOutcome where
  statusCode : Nat
  state : GlobalState
  upstreamCalls : List String
deriving DecidableEq, Repr

/-- `${x}` template interpolation of a possibly-undefined string. -/
def templateStr : Option String → String
  | none => "undefined"
  | some s => s

/-- `POST /mpesa/webhook` of `server.js` (lines 441-482).  Reads no header:
`headers` is accepted and ignored, exactly as the source never touches
`req.headers`.  On `event.event === 'charge.success' && event.data.channel
=== 'mobile_money'` it verifies the reference upstream (`upstream` is that
response) and, when `verificationResponse.data.status === 'success'`, stores
`{status: true, data}` under `verification_<reference>` with a 5-minute
deletion timer; every non-throwing path answers 200.  Plain accesses
(`event.data.channel` after a `charge.success` match with `data` undefined,
or `verificationResponse.data.status` with `data` undefined) throw and are
answered 500 by the catch branch. -/
def mpesaWebhookHandler (st : GlobalState) (now : Nat)
    (headers : List (String × String)) (body : MpesaWebhookBody)
    (upstream : PaystackVerifyResponse) : MpesaWebhookOutcome :=
  if jsStrEq body.event "charge.success" then
    match body.data with
    | none =>
      -- `event.data.channel` throws a TypeError; catch sends 500
      { statusCode := 500, state := st, upstreamCalls := [] }
    | some d =>
      if jsStrEq d.channel "mobile_money" then
        let reference := templateStr d.reference
        match upstream.data with
        | none =>
          -- `verificationResponse.data.status` throws; catch sends 500
          { statusCode := 500, state := st, upstreamCalls := [reference] }
        | some vd =>
          if jsStrEq vd.status "success" then
            let verificationKey := "verification_" ++ reference
            { statusCode := 200,
              state :=
                { cache := insertCache st.cache verificationKey
                    (.mpesaWebhookRec true vd),
                  timers := st.timers ++ [(now + fiveMinutesMs, verificationKey)] },
              upstreamCalls := [reference] }
          else
            { statusCode := 200, state := st, upstreamCalls := [reference] }
      else
        { statusCode := 200, state := st, upstreamCalls := [] }
  else
    { statusCode := 200, state := st, upstreamCalls := [] }

/-! ## M-Pesa callback (`part_000`) -/

/-- `Body.stkCallback` of an M-Pesa callback body. -/
structure StkCallback where
  CheckoutRequestID : String
  ResultCode : Option ℚ := none
  ResultDesc : Option String := none
  CallbackMetadata : Option (List CallbackItem) := none
deriving DecidableEq, Repr, Inhabited

/-- Body of `POST /mpesa/callback`: the outer `Option` is the `Body` field,
the inner one the `stkCallback` field (either may be `undefined`). -/
structure MpesaCallbackBody where
  Body : Option (Option StkCallback) := none
deriving DecidableEq, Repr, Inhabited

/-- Response of `/mpesa/callback`: `ok` is `res.json({status:'success'})`
(200), `err500` is the catch branch `res.status(500).json(...)`. -/
inductive MpesaCallbackResponse where
  | ok
  | err500
deriving DecidableEq, Repr

/-- What `/mpesa/callback` did. -/
structure MpesaCallbackOutcome where
  response : MpesaCallbackResponse
  state : GlobalState
deriving DecidableEq, Repr

/-- `items.find(item => item.Name === name)`. -/
def findItem (items : List CallbackItem) (name : String) : Option CallbackItem :=
  items.find? (fun item => item.Name == name)

/-- `POST /mpesa/callback` of `part_000` (lines 587-633).  Reads no header:
`headers` is accepted and ignored, exactly as the source never touches
`req.headers`.  Destructures `Body.stkCallback`; `ResultCode === 0` stores a
success record built from `CallbackMetadata.Item` under
`mpesa_verification_<id>` (throwing, hence 500, when `CallbackMetadata` or a
looked-up item is `undefined`); any other `ResultCode` stores a failure
record; both stores answer `{status:'success'}`.  No signature check and no
upstream call guard the success store. -/
def mpesaCallbackHandler (st : GlobalState) (headers : List (String × String))
    (body : MpesaCallbackBody) : MpesaCallbackOutcome :=
  match body.Body with
  | none =>
    -- `const { stkCallback } = Body` throws on undefined; catch sends 500
    { response := .err500, state := st }
  | some stkCallbackOpt =>
    match stkCallbackOpt with
    | none =>
      -- `stkCallback.CheckoutRequestID` throws; catch sends 500
      { response := .err500, state := st }
    | some cb =>
      let verificationKey := "mpesa_verification_" ++ cb.CheckoutRequestID
      let requestKey := "mpesa_request_" ++ cb.CheckoutRequestID
      let requestData := lookupCache st.cache requestKey
      if jsNumEq cb.ResultCode 0 then
        match cb.CallbackMetadata with
        | none =>
          -- `stkCallback.CallbackMetadata.Item` throws; catch sends 500
          { response := .err500, state := st }
        | some items =>
          match findItem items "Amount", findItem items "MpesaReceiptNumber",
              findItem items "PhoneNumber" with
          | some a, some r, some p =>
            let rec1 : CacheValue := .mpesaCallbackSucc
              { amount := a.Value, receipt := r.Value, phoneNumber := p.Value,
                checkoutRequestID := cb.CheckoutRequestID,
                metadata := CacheValue.requestMetadata requestData }
            { response := .ok,
              state := { st with cache := insertCache st.cache verificationKey rec1 } }
          | _, _, _ =>
            -- `.find(...).Value` on undefined throws; catch sends 500
            { response := .err500, state := st }
      else
        let rec0 : CacheValue := .mpesaCallbackFail
          { error := cb.ResultDesc,
            checkoutRequestID := cb.CheckoutRequestID,
            metadata := CacheValue.requestMetadata requestData }
        { response := .ok,
          state := { st with cache := insertCache st.cache verificationKey rec0 } }

/-! ## Concrete states and bodies used by the claims -/

/-- A convenient fully-empty global state. -/
def emptyState : GlobalState := { cache := [], timers := [] }

/-- A forged `stkCallback` an arbitrary caller can post to
`/mpesa/callback`: `ResultCode` 0 with a well-formed metadata item list. -/
def forgedStk : StkCallback where
  CheckoutRequestID := "forged1"
  ResultCode := some 0
  CallbackMetadata := some
    [⟨"Amount", .num 100⟩, ⟨"MpesaReceiptNumber", .str "R1"⟩,
     ⟨"PhoneNumber", .num 254700000000⟩]

/-- The forged request body wrapping `forgedStk`. -/
def forgedCallbackBody : MpesaCallbackBody where
  Body := some (some forgedStk)

/-- The success record the forged body gets inserted into the cache. -/
def forgedRecord : CacheValue :=
  .mpesaCallbackSucc
    { amount := .num 100, receipt := .str "R1",
      phoneNumber := .num 254700000000, checkoutRequestID := "forged1",
      metadata := none }

/-- A concrete cached verify record (an upstream response with successful
status). -/
def hitRecord : CacheValue :=
  .verifyResp { data := some { status := some "success", metadata := none } }

/-- A global state holding `hitRecord` under `verification_ref1`. -/
def hitState : GlobalState where
  cache := [("verification_ref1", hitRecord)]
  timers := []

/-! ## Cache and timer lemmas -/

theorem lookup_insertCache (c : List (String × CacheValue)) (key key2 : String)
    (v : CacheValue) :
    lookupCache (insertCache c key v) key2 =
      if key = key2 then some v else lookupCache c key2 := by
  induction c with
  | nil => simp [insertCache, lookupCache]
  | cons hd tl ih =>
    by_cases hk : hd.1 = key
    · subst hk
      by_cases h2 : hd.1 = key2 <;> simp [insertCache, lookupCache, h2]
    · by_cases h2 : hd.1 = key2
      · have hne : ¬ key2 = key := fun he => hk (h2.trans he)
        have hne2 : ¬ key = key2 := fun he => hne he.symm
        simp [insertCache, hk, lookupCache, h2, hne, hne2]
      · simp [insertCache, hk, lookupCache, h2, ih]

theorem lookup_insertCache_self (c : List (String × CacheValue)) (key : String)
    (v : CacheValue) : lookupCache (insertCache c key v) key = some v := by
  simp [lookup_insertCache]

theorem lookup_insertCache_ne (c : List (String × CacheValue)) (key key2 : String)
    (v : CacheValue) (h : key2 ≠ key) :
    lookupCache (insertCache c key v) key2 = lookupCache c key2 := by
  simp [lookup_insertCache, Ne.symm h]

theorem lookup_eraseCache (c : List (String × CacheValue)) (key key2 : String) :
    lookupCache (eraseCache c key) key2 =
      if key = key2 then none else lookupCache c key2 := by
  induction c with
  | nil => simp [eraseCache, lookupCache]
  | cons hd tl ih =>
    by_cases hk : hd.1 = key
    · subst hk
      by_cases h2 : hd.1 = key2
      · simp only [eraseCache, if_pos rfl]
        rw [h2] at ih ⊢
        simpa using ih
      · simp [eraseCache, lookupCache, h2, ih]
    · by_cases h2 : hd.1 = key2
      · have hne : ¬ key2 = key := fun he => hk (h2.trans he)
        have hne2 : ¬ key = key2 := fun he => hne he.symm
        simp [eraseCache, hk, lookupCache, h2, hne, hne2]
      · simp [eraseCache, hk, lookupCache, h2, ih]

theorem lookup_eraseCache_self (c : List (String × CacheValue)) (key : String) :
    lookupCache (eraseCache c key) key = none := by
  simp [lookup_eraseCache]

theorem lookup_eraseCache_ne (c : List (String × CacheValue)) (key key2 : String)
    (h : key2 ≠ key) :
    lookupCache (eraseCache c key) key2 = lookupCache c key2 := by
  simp [lookup_eraseCache, Ne.symm h]

/-- The per-timer action of `fireDueTimers`. -/
def timerStep (now : Nat) (c : List (String × CacheValue)) (p : Nat × String) :
    List (String × CacheValue) :=
  if p.1 ≤ now then eraseCache c p.2 else c

theorem fireDueTimers_cache (now : Nat) (st : GlobalState) :
    (fireDueTimers now st).cache = st.timers.foldl (timerStep now) st.cache := rfl

/-- Firing timers never resurrects a key: once absent, absent after `foldl`. -/
theorem lookup_foldl_timerStep_none (now : Nat) (timers : List (Nat × String))
    (c : List (String × CacheValue)) (key : String)
    (h : lookupCache c key = none) :
    lookupCache (timers.foldl (timerStep now) c) key = none := by
  induction timers generalizing c with
  | nil => simpa using h
  | cons hd tl ih =>
    refine ih _ ?_
    unfold timerStep
    by_cases hdue : hd.1 ≤ now
    · by_cases hk : key = hd.2
      · simp [hdue, hk, lookup_eraseCache_self]
      · simp [hdue, lookup_eraseCache_ne _ _ _ hk, h]
    · simpa [hdue] using h

/-- Firing timers that do not target `key` (or are not yet due) leaves the
binding of `key` unchanged. -/
theorem lookup_foldl_timerStep_untargeted (now : Nat) (timers : List (Nat × String))
    (c : List (String × CacheValue)) (key : String)
    (h : ∀ p ∈ timers, p.2 ≠ key ∨ now < p.1) :
    lookupCache (timers.foldl (timerStep now) c) key = lookupCache c key := by
  induction timers generalizing c with
  | nil => rfl
  | cons hd tl ih =>
    have hhd := h hd (by simp)
    have htl : ∀ p ∈ tl, p.2 ≠ key ∨ now < p.1 := fun p hp => h p (by simp [hp])
    rw [List.foldl_cons, ih _ htl]
    unfold timerStep
    rcases hhd with hne | hlate
    · by_cases hdue : hd.1 ≤ now
      · simp [hdue, lookup_eraseCache_ne _ _ _ (fun he => hne he.symm)]
      · simp [hdue]
    · simp [Nat.not_le.mpr hlate]

/-- A due timer targeting `key` deletes it (and nothing reinserts it). -/
theorem lookup_foldl_timerStep_due (now : Nat) (timers : List (Nat × String))
    (c : List (String × CacheValue)) (key : String) (tf : Nat)
    (hmem : (tf, key) ∈ timers) (hdue : tf ≤ now) :
    lookupCache (timers.foldl (timerStep now) c) key = none := by
  induction timers generalizing c with
  | nil => simp at hmem
  | cons hd tl ih =>
    rcases List.mem_cons.mp hmem with heq | htl
    · rw [List.foldl_cons]
      apply lookup_foldl_timerStep_none
      rw [← heq]
      simp [timerStep, hdue, lookup_eraseCache_self]
    · rw [List.foldl_cons]
      exact ih (timerStep now c hd) htl

/-- On a cache miss, a verify invocation makes exactly one upstream call,
caches `storedResponse` under the verification key, and appends a deletion
timer for `now + fiveMinutesMs`. -/
theorem verifyHandler_miss (st : GlobalState) (now : Nat) (ref : String)
    (accept : Option String) (up : PaystackVerifyResponse)
    (hmiss : lookupCache st.cache ("verification_" ++ ref) = none) :
    (verifyHandler st now (some ref) accept up).upstreamCalls = 1
    ∧ (verifyHandler st now (some ref) accept up).state.cache
        = insertCache st.cache ("verification_" ++ ref)
            (.verifyResp (storedResponse up ref))
    ∧ (verifyHandler st now (some ref) accept up).state.timers
        = st.timers ++ [(now + fiveMinutesMs, "verification_" ++ ref)] := by
  by_cases hacc : acceptsJson accept = true
  · refine ⟨?_, ?_, ?_⟩ <;> simp [verifyHandler, hmiss, hacc]
  · rw [Bool.not_eq_true] at hacc
    refine ⟨?_, ?_, ?_⟩ <;> simp [verifyHandler, hmiss, hacc]

/-- On a cache hit, a verify invocation returns the cached value as JSON,
leaves the state untouched and makes no upstream call. -/
theorem verifyHandler_hit (st : GlobalState) (now : Nat) (ref : String)
    (accept : Option String) (up : PaystackVerifyResponse) (v : CacheValue)
    (hhit : lookupCache st.cache ("verification_" ++ ref) = some v) :
    verifyHandler st now (some ref) accept up =
      { response := .jsonCached v, state := st, upstreamCalls := 0 } := by
  simp [verifyHandler, hhit]

/-! ## Claims -/

/-- Claim C6: for every `POST /payment/initialize` request in which `email` or
`amount` is missing, both initialize handlers answer 400 with the message
that both fields are required and make no upstream call. -/
theorem claim_C6 (env : Env) (body : InitRequestBody) (up : UpInitResp)
    (h : body.email = none ∨ body.amount = none) :
    ((SJ.initializeHandler env body up).response =
        .badRequest "Email and amount are required"
      ∧ (SJ.initializeHandler env body up).response.statusCode = 400
      ∧ (SJ.initializeHandler env body up).upstreamCalls = [])
    ∧ ((P0.initializeHandler env body up).response =
        .badRequest "Email and amount are required"
      ∧ (P0.initializeHandler env body up).response.statusCode = 400
      ∧ (P0.initializeHandler env body up).upstreamCalls = []) := by
  have hguard : (truthyStr body.email && truthyNum body.amount) = false := by
    rcases h with h | h <;> simp [h, truthyStr, truthyNum]
  refine ⟨⟨?_, ?_, ?_⟩, ?_, ?_, ?_⟩ <;>
    simp [SJ.initializeHandler, P0.initializeHandler, hguard, InitResponse.statusCode]

/-- Witness for C6 at a concrete request with `email` missing. -/
theorem claim_C6_witness :
    (({ amount := some 10 } : InitRequestBody).email = none
      ∨ ({ amount := some 10 } : InitRequestBody).amount = none)
    ∧ (((SJ.initializeHandler ⟨false, 3000⟩ { amount := some 10 } ⟨true, none⟩).response =
          .badRequest "Email and amount are required"
        ∧ (SJ.initializeHandler ⟨false, 3000⟩ { amount := some 10 } ⟨true, none⟩).response.statusCode = 400
        ∧ (SJ.initializeHandler ⟨false, 3000⟩ { amount := some 10 } ⟨true, none⟩).upstreamCalls = [])
      ∧ ((P0.initializeHandler ⟨false, 3000⟩ { amount := some 10 } ⟨true, none⟩).response =
          .badRequest "Email and amount are required"
        ∧ (P0.initializeHandler ⟨false, 3000⟩ { amount := some 10 } ⟨true, none⟩).response.statusCode = 400
        ∧ (P0.initializeHandler ⟨false, 3000⟩ { amount := some 10 } ⟨true, none⟩).upstreamCalls = [])) :=
  ⟨Or.inl rfl, claim_C6 ⟨false, 3000⟩ { amount := some 10 } ⟨true, none⟩ (Or.inl rfl)⟩

/-- Claim C10: for every `POST /payment/initialize` request with truthy `email`
and `amount` but `metadata` absent, building `custom_fields` throws a
`TypeError` reading `metadata.tier`, and both handlers answer 500 (not 400)
with the TypeError message, making no upstream call. -/
theorem claim_C10 (env : Env) (body : InitRequestBody) (up : UpInitResp)
    (he : truthyStr body.email = true) (ha : truthyNum body.amount = true)
    (hmd : body.metadata = none) :
    buildCustomFields body.metadata = .error (.typeError tierTypeErrorMsg)
    ∧ ((SJ.initializeHandler env body up).response = .serverError tierTypeErrorMsg
      ∧ (SJ.initializeHandler env body up).response.statusCode = 500
      ∧ (SJ.initializeHandler env body up).upstreamCalls = [])
    ∧ ((P0.initializeHandler env body up).response = .serverError tierTypeErrorMsg
      ∧ (P0.initializeHandler env body up).response.statusCode = 500
      ∧ (P0.initializeHandler env body up).upstreamCalls = []) := by
  have hmsg : messageOr (.typeError tierTypeErrorMsg) "Failed to initialize payment"
      = tierTypeErrorMsg := by decide
  refine ⟨by simp [hmd, buildCustomFields], ⟨?_, ?_, ?_⟩, ?_, ?_, ?_⟩ <;>
    simp [SJ.initializeHandler, P0.initializeHandler, he, ha, hmd, jsStrEq,
      buildCustomFields, hmsg, InitResponse.statusCode]

/-- Witness for C10 at a concrete request with both fields present and no
metadata. -/
theorem claim_C10_witness :
    truthyStr ({ email := some "u@e.com", amount := some 10 } : InitRequestBody).email = true
    ∧ truthyNum ({ email := some "u@e.com", amount := some 10 } : InitRequestBody).amount = true
    ∧ ({ email := some "u@e.com", amount := some 10 } : InitRequestBody).metadata = none
    ∧ (buildCustomFields ({ email := some "u@e.com", amount := some 10 } : InitRequestBody).metadata
        = .error (.typeError tierTypeErrorMsg)
      ∧ ((SJ.initializeHandler ⟨false, 3000⟩ { email := some "u@e.com", amount := some 10 } ⟨true, none⟩).response = .serverError tierTypeErrorMsg
        ∧ (SJ.initializeHandler ⟨false, 3000⟩ { email := some "u@e.com", amount := some 10 } ⟨true, none⟩).response.statusCode = 500
        ∧ (SJ.initializeHandler ⟨false, 3000⟩ { email := some "u@e.com", amount := some 10 } ⟨true, none⟩).upstreamCalls = [])
      ∧ ((P0.initializeHandler ⟨false, 3000⟩ { email := some "u@e.com", amount := some 10 } ⟨true, none⟩).response = .serverError tierTypeErrorMsg
        ∧ (P0.initializeHandler ⟨false, 3000⟩ { email := some "u@e.com", amount := some 10 } ⟨true, none⟩).response.statusCode = 500
        ∧ (P0.initializeHandler ⟨false, 3000⟩ { email := some "u@e.com", amount := some 10 } ⟨true, none⟩).upstreamCalls = [])) :=
  ⟨by decide, by decide, rfl,
    claim_C10 ⟨false, 3000⟩ { email := some "u@e.com", amount := some 10 } ⟨true, none⟩
      (by decide) (by decide) rfl⟩

/-- Claim C4: for every `POST /webhook` request whose `x-paystack-signature`
header differs from the HMAC-SHA512 digest of the body under the shared
secret, the handler answers 400, takes no branch of the event switch, and
leaves the global cache state unchanged. -/
theorem claim_C4 (hmacSha512 : String → String → String)
    (stringify : WebhookBody → String) (secret : String) (body : WebhookBody)
    (sig : Option String) (st : GlobalState)
    (h : sig ≠ some (hmacSha512 secret (stringify body))) :
    (webhookHandler hmacSha512 stringify secret body sig st).statusCode = 400
    ∧ (webhookHandler hmacSha512 stringify secret body sig st).dispatch = none
    ∧ (webhookHandler hmacSha512 stringify secret body sig st).state = st := by
  have hne : jsStrEq sig (hmacSha512 secret (stringify body)) = false := by
    cases sig with
    | none => simp [jsStrEq]
    | some s =>
      have : s ≠ hmacSha512 secret (stringify body) := fun he => h (by rw [he])
      simp [jsStrEq, this]
  refine ⟨?_, ?_, ?_⟩ <;> simp [webhookHandler, hne]

/-- Witness for C4 at a concrete mismatching signature. -/
theorem claim_C4_witness :
    (some "bad" ≠ some ((fun _ _ => "good") "secret" ((fun _ => "{}") ({} : WebhookBody)))
      : Prop)
    ∧ ((webhookHandler (fun _ _ => "good") (fun _ => "{}") "secret" {} (some "bad") emptyState).statusCode = 400
      ∧ (webhookHandler (fun _ _ => "good") (fun _ => "{}") "secret" {} (some "bad") emptyState).dispatch = none
      ∧ (webhookHandler (fun _ _ => "good") (fun _ => "{}") "secret" {} (some "bad") emptyState).state = emptyState) :=
  ⟨by decide, claim_C4 (fun _ _ => "good") (fun _ => "{}") "secret" {} (some "bad")
    emptyState (by decide)⟩

/-- Claim C7: for every `POST /webhook` request with a matching signature, the
handler answers 200 whatever the event name; the `charge.success` and
`transfer.success` branches only log (the state is unchanged), and any other
event falls to the logged default branch, still acknowledged with 200. -/
theorem claim_C7 (hmacSha512 : String → String → String)
    (stringify : WebhookBody → String) (secret : String) (body : WebhookBody)
    (sig : Option String) (st : GlobalState)
    (h : sig = some (hmacSha512 secret (stringify body))) :
    (webhookHandler hmacSha512 stringify secret body sig st).statusCode = 200
    ∧ (webhookHandler hmacSha512 stringify secret body sig st).state = st
    ∧ (body.event = some "charge.success" →
        (webhookHandler hmacSha512 stringify secret body sig st).dispatch =
          some .logChargeSuccess)
    ∧ (body.event = some "transfer.success" →
        (webhookHandler hmacSha512 stringify secret body sig st).dispatch =
          some .logTransferSuccess)
    ∧ (jsStrEq body.event "charge.success" = false →
       jsStrEq body.event "transfer.success" = false →
        (webhookHandler hmacSha512 stringify secret body sig st).dispatch =
          some .logUnhandled) := by
  have hok : jsStrEq sig (hmacSha512 secret (stringify body)) = true := by
    subst h; simp [jsStrEq]
  subst h
  refine ⟨by simp [webhookHandler, hok], by simp [webhookHandler, hok], ?_, ?_, ?_⟩
  · intro hev
    simp [webhookHandler, hok, hev, jsStrEq]
  · intro hev
    simp [webhookHandler, hok, hev, jsStrEq]
  · intro h1 h2
    simp [webhookHandler, hok, h1, h2]

/-- Witness for C7 at a valid signature and `event: "charge.success"`. -/
theorem claim_C7_witness :
    (some "d" = some ((fun _ _ => "d") "secret"
        ((fun _ => "{}") ({ event := some "charge.success" } : WebhookBody))) : Prop)
    ∧ ((webhookHandler (fun _ _ => "d") (fun _ => "{}") "secret"
          { event := some "charge.success" } (some "d") emptyState).statusCode = 200
      ∧ (webhookHandler (fun _ _ => "d") (fun _ => "{}") "secret"
          { event := some "charge.success" } (some "d") emptyState).state = emptyState
      ∧ (({ event := some "charge.success" } : WebhookBody).event = some "charge.success" →
          (webhookHandler (fun _ _ => "d") (fun _ => "{}") "secret"
            { event := some "charge.success" } (some "d") emptyState).dispatch =
              some .logChargeSuccess)
      ∧ (({ event := some "charge.success" } : WebhookBody).event = some "transfer.success" →
          (webhookHandler (fun _ _ => "d") (fun _ => "{}") "secret"
            { event := some "charge.success" } (some "d") emptyState).dispatch =
              some .logTransferSuccess)
      ∧ (jsStrEq ({ event := some "charge.success" } : WebhookBody).event "charge.success" = false →
         jsStrEq ({ event := some "charge.success" } : WebhookBody).event "transfer.success" = false →
          (webhookHandler (fun _ _ => "d") (fun _ => "{}") "secret"
            { event := some "charge.success" } (some "d") emptyState).dispatch =
              some .logUnhandled)) :=
  ⟨rfl, claim_C7 (fun _ _ => "d") (fun _ => "{}") "secret"
    { event := some "charge.success" } (some "d") emptyState rfl⟩

/-- Claim C9: neither `POST /mpesa/webhook` nor `POST /mpesa/callback` performs any
signature verification — the outcome is identical for any two header lists —
and a caller posting a well-formed success callback body inserts a
`status: true` record into the verification cache. -/
theorem claim_C9 :
    (∀ (st : GlobalState) (now : Nat) (h1 h2 : List (String × String))
        (body : MpesaWebhookBody) (up : PaystackVerifyResponse),
        mpesaWebhookHandler st now h1 body up = mpesaWebhookHandler st now h2 body up)
    ∧ (∀ (st : GlobalState) (h1 h2 : List (String × String))
        (body : MpesaCallbackBody),
        mpesaCallbackHandler st h1 body = mpesaCallbackHandler st h2 body)
    ∧ ((mpesaCallbackHandler emptyState [] forgedCallbackBody).response = .ok
      ∧ lookupCache (mpesaCallbackHandler emptyState [] forgedCallbackBody).state.cache
          "mpesa_verification_forged1" = some forgedRecord) :=
  ⟨fun _ _ _ _ _ _ => rfl, fun _ _ _ _ => rfl, by decide, by decide⟩

/-- Claim C1 counterexample: at the concrete request `GET /payment/verify` with no
`reference` parameter, the handler does not answer 400 — it answers 500 for
a JSON-accepting caller and issues a redirect for any other caller —
refuting the claim that this validation error yields 400 and never a
redirect. -/
theorem claim_C1_counterexample :
    (verifyHandler emptyState 0 none (some "application/json") default).response.statusCode = 500
    ∧ (verifyHandler emptyState 0 none (some "application/json") default).response.statusCode ≠ 400
    ∧ (verifyHandler emptyState 0 none none default).response.isRedirect = true := by
  refine ⟨?_, by decide, ?_⟩ <;> decide

/-- Claim C1 amended: validation errors of the initialize endpoint (missing
`email`/`amount`) yield 400; an unexpected exception (reading
`metadata.tier` of an absent `metadata`) yields 500 carrying the error
message; but `GET /payment/verify` with no `reference` is handled by the
catch branch, yielding 500 with the error message when the caller accepts
JSON and a 302 `dfirsttrader://` redirect otherwise — never 400. -/
theorem claim_C1_amended (env : Env) (body bodyE : InitRequestBody)
    (up : UpInitResp) (st : GlobalState) (now : Nat) (accept : Option String)
    (upv : PaystackVerifyResponse)
    (hmiss : body.email = none ∨ body.amount = none)
    (heE : truthyStr bodyE.email = true) (haE : truthyNum bodyE.amount = true)
    (hmdE : bodyE.metadata = none) :
    ((SJ.initializeHandler env body up).response.statusCode = 400
      ∧ (P0.initializeHandler env body up).response.statusCode = 400)
    ∧ ((SJ.initializeHandler env bodyE up).response = .serverError tierTypeErrorMsg
      ∧ (SJ.initializeHandler env bodyE up).response.statusCode = 500)
    ∧ ((acceptsJson accept = true →
          (verifyHandler st now none accept upv).response =
            .json500 "No reference provided")
      ∧ (acceptsJson accept = false →
          (verifyHandler st now none accept upv).response.isRedirect = true)
      ∧ (verifyHandler st now none accept upv).response.statusCode ≠ 400) := by
  have hguard : (truthyStr body.email && truthyNum body.amount) = false := by
    rcases hmiss with h | h <;> simp [h, truthyStr, truthyNum]
  have hmsg : messageOr (.typeError tierTypeErrorMsg) "Failed to initialize payment"
      = tierTypeErrorMsg := by decide
  refine ⟨⟨?_, ?_⟩, ⟨?_, ?_⟩, ?_, ?_, ?_⟩
  · simp [SJ.initializeHandler, hguard, InitResponse.statusCode]
  · simp [P0.initializeHandler, hguard, InitResponse.statusCode]
  · simp [SJ.initializeHandler, heE, haE, hmdE, jsStrEq, buildCustomFields, hmsg]
  · simp [SJ.initializeHandler, heE, haE, hmdE, jsStrEq, buildCustomFields, hmsg,
      InitResponse.statusCode]
  · intro hacc
    simp [verifyHandler, hacc]
  · intro hacc
    simp [verifyHandler, hacc, VerifyResponse.isRedirect]
  · by_cases hacc : acceptsJson accept = true <;>
      simp [verifyHandler, hacc, VerifyResponse.statusCode]

/-- Witness for the amended C1 at concrete requests. -/
theorem claim_C1_amended_witness :
    (({ amount := some 10 } : InitRequestBody).email = none
      ∨ ({ amount := some 10 } : InitRequestBody).amount = none)
    ∧ truthyStr ({ email := some "u@e.com", amount := some 10 } : InitRequestBody).email = true
    ∧ truthyNum ({ email := some "u@e.com", amount := some 10 } : InitRequestBody).amount = true
    ∧ ({ email := some "u@e.com", amount := some 10 } : InitRequestBody).metadata = none
    ∧ (((SJ.initializeHandler ⟨true, 3000⟩ { amount := some 10 } ⟨true, none⟩).response.statusCode = 400
        ∧ (P0.initializeHandler ⟨true, 3000⟩ { amount := some 10 } ⟨true, none⟩).response.statusCode = 400)
      ∧ ((SJ.initializeHandler ⟨true, 3000⟩ { email := some "u@e.com", amount := some 10 } ⟨true, none⟩).response = .serverError tierTypeErrorMsg
        ∧ (SJ.initializeHandler ⟨true, 3000⟩ { email := some "u@e.com", amount := some 10 } ⟨true, none⟩).response.statusCode = 500)
      ∧ ((acceptsJson (some "application/json") = true →
            (verifyHandler emptyState 7 none (some "application/json") default).response =
              .json500 "No reference provided")
        ∧ (acceptsJson (some "application/json") = false →
            (verifyHandler emptyState 7 none (some "application/json") default).response.isRedirect = true)
        ∧ (verifyHandler emptyState 7 none (some "application/json") default).response.statusCode ≠ 400)) :=
  ⟨Or.inl rfl, by decide, by decide, rfl,
    claim_C1_amended ⟨true, 3000⟩ { amount := some 10 }
      { email := some "u@e.com", amount := some 10 } ⟨true, none⟩ emptyState 7
      (some "application/json") default (Or.inl rfl) (by decide) (by decide) rfl⟩

/-- Claim C2 counterexample: at the concrete initialize request with
`amount = 1/200` (0.005 currency units), the card payload built by the
`part_000` handler carries `Math.round(amount * 100) = 1`, not
`amount * 100 = 1/2` — refuting the claim that the card payload always
carries the amount multiplied by 100. -/
theorem claim_C2_counterexample :
    (P0.initializeHandler ⟨false, 3000⟩
        { email := some "u@e.com", amount := some (1/200), metadata := some {} }
        ⟨true, none⟩).upstreamCalls.map (·.amount) = [1]
    ∧ (1 : ℚ) ≠ (1/200 : ℚ) * 100 := by
  constructor
  · have hg : (truthyStr (some "u@e.com") && truthyNum (some (1/200 : ℚ))) = true := by
      refine (Bool.and_eq_true _ _).mpr ⟨by decide, ?_⟩
      norm_num [truthyNum]
    simp only [P0.initializeHandler, hg, buildCustomFields, if_true]
    simp only [List.map_cons, List.map_nil, List.cons.injEq, and_true]
    norm_num [round_eq]
  · norm_num

/-- Claim C2 amended: with truthy `email` and `amount` and `metadata` present, the
`server.js` M-Pesa payload carries `amount` unscaled, the `server.js` card
payload carries `amount * 100`, and the `part_000` card payload carries
`Math.round(amount * 100)` — which agree with "amount multiplied by 100"
exactly when `amount * 100` is an integer, so `amount = 10` produces an
upstream `amount` of 1000 in both variants. -/
theorem claim_C2_amended (env : Env) (body : InitRequestBody) (up : UpInitResp)
    (md : InitMetadata)
    (he : truthyStr body.email = true) (ha : truthyNum body.amount = true)
    (hmd : body.metadata = some md) :
    ((jsStrEq md.paymentMethod "mpesa" && truthyStr md.phoneNumber) = true →
      (SJ.initializeHandler env body up).upstreamCalls.map (·.amount)
        = [body.amount.getD 0])
    ∧ ((jsStrEq md.paymentMethod "mpesa" && truthyStr md.phoneNumber) = false →
      (SJ.initializeHandler env body up).upstreamCalls.map (·.amount)
        = [(body.amount.getD 0) * 100])
    ∧ (P0.initializeHandler env body up).upstreamCalls.map (·.amount)
        = [((round ((body.amount.getD 0) * 100) : ℤ) : ℚ)]
    ∧ (body.amount = some 10 →
        (body.amount.getD 0) * 100 = 1000
        ∧ ((round ((body.amount.getD 0) * 100) : ℤ) : ℚ) = 1000) := by
  refine ⟨?_, ?_, ?_, ?_⟩
  · intro hbranch
    rcases hup : up.status with _ | _ <;>
      simp [SJ.initializeHandler, he, ha, hmd, hbranch, buildCustomFields, hup]
  · intro hbranch
    simp [SJ.initializeHandler, he, ha, hmd, hbranch, buildCustomFields]
  · simp [P0.initializeHandler, he, ha, hmd, buildCustomFields]
  · intro h10
    have hb : body.amount.getD 0 = 10 := by rw [h10]; rfl
    rw [hb]
    refine ⟨by norm_num, ?_⟩
    rw [show ((10 : ℚ) * 100) = (1000 : ℚ) by norm_num]
    rw [show ((1000 : ℚ)) = ((1000 : ℤ) : ℚ) by norm_num]
    rw [round_intCast]

/-- Witness for the amended C2 at a concrete card request with
`amount = 10`. -/
theorem claim_C2_amended_witness :
    truthyStr ({ email := some "u@e.com", amount := some 10, metadata := some {} } : InitRequestBody).email = true
    ∧ truthyNum ({ email := some "u@e.com", amount := some 10, metadata := some {} } : InitRequestBody).amount = true
    ∧ ({ email := some "u@e.com", amount := some 10, metadata := some {} } : InitRequestBody).metadata = some {}
    ∧ (((jsStrEq ({} : InitMetadata).paymentMethod "mpesa" && truthyStr ({} : InitMetadata).phoneNumber) = true →
        (SJ.initializeHandler ⟨false, 3000⟩ { email := some "u@e.com", amount := some 10, metadata := some {} } ⟨true, none⟩).upstreamCalls.map (·.amount)
          = [({ email := some "u@e.com", amount := some 10, metadata := some {} } : InitRequestBody).amount.getD 0])
      ∧ ((jsStrEq ({} : InitMetadata).paymentMethod "mpesa" && truthyStr ({} : InitMetadata).phoneNumber) = false →
        (SJ.initializeHandler ⟨false, 3000⟩ { email := some "u@e.com", amount := some 10, metadata := some {} } ⟨true, none⟩).upstreamCalls.map (·.amount)
          = [(({ email := some "u@e.com", amount := some 10, metadata := some {} } : InitRequestBody).amount.getD 0) * 100])
      ∧ (P0.initializeHandler ⟨false, 3000⟩ { email := some "u@e.com", amount := some 10, metadata := some {} } ⟨true, none⟩).upstreamCalls.map (·.amount)
          = [((round ((({ email := some "u@e.com", amount := some 10, metadata := some {} } : InitRequestBody).amount.getD 0) * 100) : ℤ) : ℚ)]
      ∧ (({ email := some "u@e.com", amount := some 10, metadata := some {} } : InitRequestBody).amount = some 10 →
          (({ email := some "u@e.com", amount := some 10, metadata := some {} } : InitRequestBody).amount.getD 0) * 100 = 1000
          ∧ ((round ((({ email := some "u@e.com", amount := some 10, metadata := some {} } : InitRequestBody).amount.getD 0) * 100) : ℤ) : ℚ) = 1000)) :=
  ⟨by decide, by decide, rfl,
    claim_C2_amended ⟨false, 3000⟩
      { email := some "u@e.com", amount := some 10, metadata := some {} }
      ⟨true, none⟩ {} (by decide) (by decide) rfl⟩

/-- Claim C5 counterexample: at a concrete cache-hit request whose Accept header
is absent (a non-JSON client), the handler still answers with the cached
JSON record and does not redirect — refuting the claim that the
Accept-header dependence holds on cache hits. -/
theorem claim_C5_counterexample :
    acceptsJson none = false
    ∧ (verifyHandler hitState 0 (some "ref1") none default).response =
        .jsonCached hitRecord
    ∧ (verifyHandler hitState 0 (some "ref1") none default).response.isRedirect
        = false := by
  refine ⟨rfl, ?_, ?_⟩ <;> decide

/-- Claim C5 amended: the success boolean is derived from the upstream response's
`data.status` being `'success'`, and on a cache miss the response is JSON
when the Accept header includes `application/json` and a 302
`dfirsttrader://` redirect otherwise; on a cache hit, however, the cached
record is returned as JSON regardless of the Accept header. -/
theorem claim_C5_amended (st hst : GlobalState) (now : Nat) (ref : String)
    (accept : Option String) (up : PaystackVerifyResponse) (v : CacheValue)
    (hmiss : lookupCache st.cache ("verification_" ++ ref) = none)
    (hhit : lookupCache hst.cache ("verification_" ++ ref) = some v) :
    (acceptsJson accept = true →
      (verifyHandler st now (some ref) accept up).response.isJson = true
      ∧ (verifyHandler st now (some ref) accept up).response.isRedirect = false)
    ∧ (acceptsJson accept = false →
      (verifyHandler st now (some ref) accept up).response.isRedirect = true
      ∧ (verifyHandler st now (some ref) accept up).response.statusCode = 302
      ∧ (verifyHandler st now (some ref) accept up).response.redirectStatus
          = some (if jsStrEq ((up.data).bind (·.status)) "success"
              then "success" else "failed"))
    ∧ (verifyHandler hst now (some ref) accept up).response = .jsonCached v := by
  refine ⟨?_, ?_, ?_⟩
  · intro hacc
    simp [verifyHandler, hmiss, hacc, VerifyResponse.isJson, VerifyResponse.isRedirect]
  · intro hacc
    refine ⟨?_, ?_, ?_⟩ <;>
      simp [verifyHandler, hmiss, hacc, VerifyResponse.statusCode,
        VerifyResponse.isRedirect, VerifyResponse.redirectStatus]
  · simp [verifyHandler, hhit]

/-- Witness for the amended C5 at a concrete miss state and the concrete hit
state. -/
theorem claim_C5_amended_witness :
    lookupCache emptyState.cache ("verification_" ++ "ref1") = none
    ∧ lookupCache hitState.cache ("verification_" ++ "ref1") = some hitRecord
    ∧ ((acceptsJson none = true →
        (verifyHandler emptyState 3 (some "ref1") none default).response.isJson = true
        ∧ (verifyHandler emptyState 3 (some "ref1") none default).response.isRedirect = false)
      ∧ (acceptsJson none = false →
        (verifyHandler emptyState 3 (some "ref1") none default).response.isRedirect = true
        ∧ (verifyHandler emptyState 3 (some "ref1") none default).response.statusCode = 302
        ∧ (verifyHandler emptyState 3 (some "ref1") none default).response.redirectStatus
            = some (if jsStrEq (((default : PaystackVerifyResponse).data).bind (·.status)) "success"
                then "success" else "failed"))
      ∧ (verifyHandler hitState 3 (some "ref1") none default).response = .jsonCached hitRecord) :=
  ⟨rfl, by decide,
    claim_C5_amended emptyState hitState 3 "ref1" none default hitRecord rfl (by decide)⟩

/-- Claim C3: once a verify miss at time `t0` inserts the record for `ref`, a
second verify at any `t1` inside the 5-minute window (after firing all due
timers) hits the cache, returns exactly the stored record, and makes no
upstream call — one upstream call in total. -/
theorem claim_C3 (st : GlobalState) (t0 t1 : Nat) (ref : String)
    (accept0 accept1 : Option String) (up0 up1 : PaystackVerifyResponse)
    (hmiss : lookupCache st.cache ("verification_" ++ ref) = none)
    (hnotimer : ∀ p ∈ st.timers, p.2 ≠ "verification_" ++ ref)
    (ht : t1 < t0 + fiveMinutesMs) :
    (verifyHandler st t0 (some ref) accept0 up0).upstreamCalls = 1
    ∧ lookupCache (verifyHandler st t0 (some ref) accept0 up0).state.cache
        ("verification_" ++ ref) = some (.verifyResp (storedResponse up0 ref))
    ∧ (verifyHandler
        (fireDueTimers t1 (verifyHandler st t0 (some ref) accept0 up0).state)
        t1 (some ref) accept1 up1).response
        = .jsonCached (.verifyResp (storedResponse up0 ref))
    ∧ (verifyHandler
        (fireDueTimers t1 (verifyHandler st t0 (some ref) accept0 up0).state)
        t1 (some ref) accept1 up1).upstreamCalls = 0
    ∧ (verifyHandler st t0 (some ref) accept0 up0).upstreamCalls
      + (verifyHandler
          (fireDueTimers t1 (verifyHandler st t0 (some ref) accept0 up0).state)
          t1 (some ref) accept1 up1).upstreamCalls = 1 := by
  obtain ⟨hcalls, hcache, htimers⟩ :=
    verifyHandler_miss st t0 ref accept0 up0 hmiss
  have hlook0 : lookupCache (verifyHandler st t0 (some ref) accept0 up0).state.cache
      ("verification_" ++ ref) = some (.verifyResp (storedResponse up0 ref)) := by
    rw [hcache, lookup_insertCache_self]
  have hsafe : ∀ p ∈ (verifyHandler st t0 (some ref) accept0 up0).state.timers,
      p.2 ≠ "verification_" ++ ref ∨ t1 < p.1 := by
    rw [htimers]
    intro p hp
    rcases List.mem_append.mp hp with hold | hnew
    · exact Or.inl (hnotimer p hold)
    · simp only [List.mem_singleton] at hnew
      subst hnew
      exact Or.inr ht
  have hlook1 : lookupCache
      (fireDueTimers t1 (verifyHandler st t0 (some ref) accept0 up0).state).cache
      ("verification_" ++ ref) = some (.verifyResp (storedResponse up0 ref)) := by
    rw [fireDueTimers_cache]
    rw [lookup_foldl_timerStep_untargeted t1 _ _ _ hsafe]
    exact hlook0
  have hhit := verifyHandler_hit
    (fireDueTimers t1 (verifyHandler st t0 (some ref) accept0 up0).state)
    t1 ref accept1 up1 (.verifyResp (storedResponse up0 ref)) hlook1
  refine ⟨hcalls, hlook0, ?_, ?_, ?_⟩
  · rw [hhit]
  · rw [hhit]
  · rw [hhit, hcalls]
    rfl

/-- Witness for C3 at a concrete state: first verify at 0 ms, second at
299999 ms. -/
theorem claim_C3_witness :
    lookupCache emptyState.cache ("verification_" ++ "ref1") = none
    ∧ (∀ p ∈ emptyState.timers, p.2 ≠ "verification_" ++ "ref1")
    ∧ 299999 < 0 + fiveMinutesMs
    ∧ ((verifyHandler emptyState 0 (some "ref1") (some "application/json") default).upstreamCalls = 1
      ∧ lookupCache (verifyHandler emptyState 0 (some "ref1") (some "application/json") default).state.cache
          ("verification_" ++ "ref1") = some (.verifyResp (storedResponse default "ref1"))
      ∧ (verifyHandler
          (fireDueTimers 299999 (verifyHandler emptyState 0 (some "ref1") (some "application/json") default).state)
          299999 (some "ref1") none default).response
          = .jsonCached (.verifyResp (storedResponse default "ref1"))
      ∧ (verifyHandler
          (fireDueTimers 299999 (verifyHandler emptyState 0 (some "ref1") (some "application/json") default).state)
          299999 (some "ref1") none default).upstreamCalls = 0
      ∧ (verifyHandler emptyState 0 (some "ref1") (some "application/json") default).upstreamCalls
        + (verifyHandler
            (fireDueTimers 299999 (verifyHandler emptyState 0 (some "ref1") (some "application/json") default).state)
            299999 (some "ref1") none default).upstreamCalls = 1) :=
  ⟨rfl, by simp [emptyState], by decide,
    claim_C3 emptyState 0 299999 "ref1" (some "application/json") none default default
      rfl (by simp [emptyState]) (by decide)⟩

/-- Claim C8: the verify miss at `t0` schedules deletion of the cached record for
exactly `t0 + fiveMinutesMs`: before that instant the record survives timer
firing, at or after it the record is gone, and a verify arriving then misses
the cache and issues a second upstream call (two upstream calls in total). -/
theorem claim_C8 (st : GlobalState) (t0 t1 : Nat) (ref : String)
    (accept0 accept1 : Option String) (up0 up1 : PaystackVerifyResponse)
    (hmiss : lookupCache st.cache ("verification_" ++ ref) = none)
    (hnotimer : ∀ p ∈ st.timers, p.2 ≠ "verification_" ++ ref)
    (hexp : t0 + fiveMinutesMs ≤ t1) :
    ((t0 + fiveMinutesMs, "verification_" ++ ref)
        ∈ (verifyHandler st t0 (some ref) accept0 up0).state.timers)
    ∧ (∀ t, t < t0 + fiveMinutesMs →
        lookupCache (fireDueTimers t (verifyHandler st t0 (some ref) accept0 up0).state).cache
          ("verification_" ++ ref) = some (.verifyResp (storedResponse up0 ref)))
    ∧ lookupCache (fireDueTimers t1 (verifyHandler st t0 (some ref) accept0 up0).state).cache
        ("verification_" ++ ref) = none
    ∧ (verifyHandler
        (fireDueTimers t1 (verifyHandler st t0 (some ref) accept0 up0).state)
        t1 (some ref) accept1 up1).upstreamCalls = 1
    ∧ (verifyHandler st t0 (some ref) accept0 up0).upstreamCalls
      + (verifyHandler
          (fireDueTimers t1 (verifyHandler st t0 (some ref) accept0 up0).state)
          t1 (some ref) accept1 up1).upstreamCalls = 2 := by
  obtain ⟨hcalls, hcache, htimers⟩ :=
    verifyHandler_miss st t0 ref accept0 up0 hmiss
  have hlook0 : lookupCache (verifyHandler st t0 (some ref) accept0 up0).state.cache
      ("verification_" ++ ref) = some (.verifyResp (storedResponse up0 ref)) := by
    rw [hcache, lookup_insertCache_self]
  have hmem : (t0 + fiveMinutesMs, "verification_" ++ ref)
      ∈ (verifyHandler st t0 (some ref) accept0 up0).state.timers := by
    rw [htimers]
    simp
  have hsurvive : ∀ t, t < t0 + fiveMinutesMs →
      lookupCache (fireDueTimers t (verifyHandler st t0 (some ref) accept0 up0).state).cache
        ("verification_" ++ ref) = some (.verifyResp (storedResponse up0 ref)) := by
    intro t htlt
    have hsafe : ∀ p ∈ (verifyHandler st t0 (some ref) accept0 up0).state.timers,
        p.2 ≠ "verification_" ++ ref ∨ t < p.1 := by
      rw [htimers]
      intro p hp
      rcases List.mem_append.mp hp with hold | hnew
      · exact Or.inl (hnotimer p hold)
      · simp only [List.mem_singleton] at hnew
        subst hnew
        exact Or.inr htlt
    rw [fireDueTimers_cache, lookup_foldl_timerStep_untargeted t _ _ _ hsafe]
    exact hlook0
  have hgone : lookupCache
      (fireDueTimers t1 (verifyHandler st t0 (some ref) accept0 up0).state).cache
      ("verification_" ++ ref) = none := by
    rw [fireDueTimers_cache]
    exact lookup_foldl_timerStep_due t1 _ _ _ (t0 + fiveMinutesMs) hmem hexp
  refine ⟨hmem, hsurvive, hgone, ?_, ?_⟩
  · obtain ⟨hcalls1, _, _⟩ := verifyHandler_miss
      (fireDueTimers t1 (verifyHandler st t0 (some ref) accept0 up0).state)
      t1 ref accept1 up1 hgone
    exact hcalls1
  · obtain ⟨hcalls1, _, _⟩ := verifyHandler_miss
      (fireDueTimers t1 (verifyHandler st t0 (some ref) accept0 up0).state)
      t1 ref accept1 up1 hgone
    rw [hcalls, hcalls1]

/-- Witness for C8 at a concrete state: first verify at 0 ms, second at
exactly 300000 ms. -/
theorem claim_C8_witness :
    lookupCache emptyState.cache ("verification_" ++ "ref1") = none
    ∧ (∀ p ∈ emptyState.timers, p.2 ≠ "verification_" ++ "ref1")
    ∧ 0 + fiveMinutesMs ≤ 300000
    ∧ (((0 + fiveMinutesMs, "verification_" ++ "ref1")
          ∈ (verifyHandler emptyState 0 (some "ref1") (some "application/json") default).state.timers)
      ∧ (∀ t, t < 0 + fiveMinutesMs →
          lookupCache (fireDueTimers t (verifyHandler emptyState 0 (some "ref1") (some "application/json") default).state).cache
            ("verification_" ++ "ref1") = some (.verifyResp (storedResponse default "ref1")))
      ∧ lookupCache (fireDueTimers 300000 (verifyHandler emptyState 0 (some "ref1") (some "application/json") default).state).cache
          ("verification_" ++ "ref1") = none
      ∧ (verifyHandler
          (fireDueTimers 300000 (verifyHandler emptyState 0 (some "ref1") (some "application/json") default).state)
          300000 (some "ref1") none default).upstreamCalls = 1
      ∧ (verifyHandler emptyState 0 (some "ref1") (some "application/json") default).upstreamCalls
        + (verifyHandler
            (fireDueTimers 300000 (verifyHandler emptyState 0 (some "ref1") (some "application/json") default).state)
            300000 (some "ref1") none default).upstreamCalls = 2) :=
  ⟨rfl, by simp [emptyState], by decide,
    claim_C8 emptyState 0 300000 "ref1" (some "application/json") none default default
      rfl (by simp [emptyState]) (by decide)⟩

end DFirst
